import Mathlib

/-!
# Verification of the serena AMQP 0-9-1 client core

Shallow embedding of the method-payload registry (`src/serena/payloads/method.py`)
and the per-channel state machine (`src/serena/channel.py`), together with the
parts of the codec and connection layer that those files use.  The codec
(`serena/payloads/encoding.py`, `serena/utils/buffer.py`), the frame/header/exc
modules and `serena/connection.py` are not part of the sources under
verification; where their behaviour is needed it is modelled from the
specification, and each such definition says so in its doc comment.

Bytes are modelled as `List Nat` with each element `< 256` where it matters
(the encoders reduce modulo 256 / 2^16 / 2^32 / 2^64 at the write site).
-/

deriving instance DecidableEq for Except

namespace Serena

/-- Enumeration of method class IDs (`method.py` lines 19-29). -/
inductive ClassID where
  | CONNECTION
  | CHANNEL
  | EXCHANGE
  | QUEUE
  | BASIC
  | TX
deriving DecidableEq, Repr, Fintype

/-- The numeric value of each `ClassID` enum member (`method.py` lines 24-29). -/
def ClassID.value : ClassID → Nat
  | .CONNECTION => 10
  | .CHANNEL => 20
  | .EXCHANGE => 40
  | .QUEUE => 50
  | .BASIC => 60
  | .TX => 90

/-- `ClassID(n)`: the Python `IntEnum` constructor, which raises `ValueError`
(modelled as `none`) when `n` is not a member value. -/
def classIdOfNat (n : Nat) : Option ClassID :=
  if n = 10 then some .CONNECTION
  else if n = 20 then some .CHANNEL
  else if n = 40 then some .EXCHANGE
  else if n = 50 then some .QUEUE
  else if n = 60 then some .BASIC
  else if n = 90 then some .TX
  else none

/-! ## Codec

Modelled from the spec (§4.1): primitive AMQP types `octet / short / long /
longlong / shortstr / longstr / bit` and the field table, with consecutive
`bit` fields packed LSB-first into shared octets and any non-bit field
flushing the pending bit buffer.  `encoding.py` / `buffer.py` are not under
`src/`, so this is the spec's codec, not a transcription. -/

/-- Modelled from the spec: a field-table value.  Restricted to the type tags
`t` (boolean), `I` (signed 32-bit int) and `S` (long string); no claim under
verification decodes or encodes table contents, the table only travels through
payloads opaquely. -/
inductive FieldValue where
  | boolean (b : Bool)
  | int32 (i : Int)
  | longstr (s : List Nat)
deriving DecidableEq, Repr

/-- A field table: ordered name/value entries (spec §4.1). -/
abbrev FieldTable := List (String × FieldValue)

/-- The wire type of one attrs field, as selected by `aq_type` metadata or by
the field's annotated Python type (str ⇒ shortstr, bytes ⇒ longstr, bool ⇒ bit,
dict ⇒ field table). -/
inductive FieldType where
  | octet
  | short
  | long
  | longlong
  | shortstr
  | longstr
  | bit
  | table
deriving DecidableEq, Repr

/-- A decoded field value, the codomain of the per-field decoder. -/
inductive AqValue where
  | nat (n : Nat)
  | str (s : String)
  | bytes (bs : List Nat)
  | bool (b : Bool)
  | table (t : FieldTable)
deriving DecidableEq, Repr

/-- Big-endian base-256 digits, most significant first, fixed width `w`. -/
def natToBytesBE (w n : Nat) : List Nat :=
  match w with
  | 0 => []
  | w + 1 => natToBytesBE w (n / 256) ++ [n % 256]

/-- `int.from_bytes(bs, byteorder="big")`. -/
def bytesToNatBE (bs : List Nat) : Nat :=
  bs.foldl (fun acc b => acc * 256 + b) 0

/-- Modelled from the spec: bytes of a string.  The AMQP strings exercised by
the claims are ASCII, so a string is modelled as its character code points. -/
def strBytes (s : String) : List Nat :=
  s.data.map Char.toNat

/-- Modelled from the spec: the code points back to a string (ASCII model,
mirror of `strBytes`). -/
def bytesToStr (bs : List Nat) : String :=
  ⟨bs.map Char.ofNat⟩

/-- A run of bits packed LSB-first into one octet (spec §4.1 bit packing). -/
def bitsToOctet (bits : List Bool) : Nat :=
  (bits.foldr (fun b acc => acc * 2 + (if b then 1 else 0)) 0) % 256

/-- Modelled from the spec: the `EncodingBuffer` — emitted bytes plus the
pending LSB-first bit run. -/
structure EncodingBuffer where
  out : List Nat
  bits : List Bool
deriving DecidableEq, Repr

/-- `force_write_bits`: flush the pending bit run into ⌈n/8⌉ octets (here at
most one octet is ever pending, as a full octet is flushed eagerly). -/
def EncodingBuffer.forceWriteBits (buf : EncodingBuffer) : EncodingBuffer :=
  if buf.bits.isEmpty then buf
  else { out := buf.out ++ [bitsToOctet buf.bits], bits := [] }

/-- Write one bit; a completed octet is flushed immediately. -/
def EncodingBuffer.writeBit (buf : EncodingBuffer) (b : Bool) : EncodingBuffer :=
  let bits := buf.bits ++ [b]
  if bits.length = 8 then { out := buf.out ++ [bitsToOctet bits], bits := [] }
  else { out := buf.out, bits := bits }

/-- Write raw bytes; any pending bit run is flushed first (spec: a non-bit
field flushes the pending bit buffer). -/
def EncodingBuffer.writeBytes (buf : EncodingBuffer) (bs : List Nat) : EncodingBuffer :=
  let buf := buf.forceWriteBits
  { out := buf.out ++ bs, bits := [] }

/-- Modelled from the spec: encode one field-table value with its type tag. -/
def encodeFieldValue : FieldValue → List Nat
  | .boolean b => [116, if b then 1 else 0]
  | .int32 i => 73 :: natToBytesBE 4 ((i % (2 ^ 32 : Nat)).toNat)
  | .longstr s => 83 :: (natToBytesBE 4 s.length ++ s)

/-- Modelled from the spec: encode a field table — a `long`-prefixed sequence
of `{shortstr-name, type-tag, value}` entries. -/
def encodeTable (t : FieldTable) : List Nat :=
  let body := t.foldr
    (fun e acc => ((strBytes e.1).length % 256 :: strBytes e.1) ++ encodeFieldValue e.2 ++ acc) []
  natToBytesBE 4 body.length ++ body

/-- Encode one typed field into the buffer (spec §4.1). -/
def encodeField (buf : EncodingBuffer) : FieldType × AqValue → EncodingBuffer
  | (.octet, .nat n) => buf.writeBytes [n % 256]
  | (.short, .nat n) => buf.writeBytes (natToBytesBE 2 n)
  | (.long, .nat n) => buf.writeBytes (natToBytesBE 4 n)
  | (.longlong, .nat n) => buf.writeBytes (natToBytesBE 8 n)
  | (.shortstr, .str s) => buf.writeBytes ((strBytes s).length % 256 :: strBytes s)
  | (.longstr, .bytes bs) => buf.writeBytes (natToBytesBE 4 bs.length ++ bs)
  | (.bit, .bool b) => buf.writeBit b
  | (.table, .table t) => buf.writeBytes (encodeTable t)
  | (_, _) => buf

/-- Encode a field list left to right, starting from an empty buffer (the body
of `serialise_payload`'s field loop). -/
def encodeFields (fields : List (FieldType × AqValue)) : EncodingBuffer :=
  fields.foldl encodeField ⟨[], []⟩

/-- `CodecError` kinds (spec §4.1). -/
inductive CodecError where
  | underRun
  | invalidTypeTag (tag : Nat)
  | lengthMismatch
deriving DecidableEq, Repr

/-- Modelled from the spec: the `DecodingBuffer` — remaining bytes plus the
bit-read cursor (current octet and next bit index), mirroring the encoder's
packing. -/
structure DecodingBuffer where
  data : List Nat
  bitOctet : Option (Nat × Nat)
deriving DecidableEq, Repr

/-- Take exactly `n` bytes, discarding any pending bit cursor (a non-bit read
resets the bit run, mirroring the encoder's flush). -/
def DecodingBuffer.readBytes (buf : DecodingBuffer) (n : Nat) :
    Except CodecError (List Nat × DecodingBuffer) :=
  if n ≤ buf.data.length then
    .ok (buf.data.take n, { data := buf.data.drop n, bitOctet := none })
  else .error .underRun

/-- Read one bit; consecutive bit reads share an octet, LSB first. -/
def DecodingBuffer.readBit (buf : DecodingBuffer) :
    Except CodecError (Bool × DecodingBuffer) :=
  match buf.bitOctet with
  | some (o, i) =>
    if i < 8 then .ok ((o / 2 ^ i) % 2 = 1, { buf with bitOctet := some (o, i + 1) })
    else match buf.data with
      | [] => .error .underRun
      | b :: rest => .ok (b % 2 = 1, { data := rest, bitOctet := some (b, 1) })
  | none =>
    match buf.data with
    | [] => .error .underRun
    | b :: rest => .ok (b % 2 = 1, { data := rest, bitOctet := some (b, 1) })

/-- Modelled from the spec: decode one table value given its type tag. -/
def decodeFieldValue (tag : Nat) (bs : List Nat) :
    Except CodecError (FieldValue × List Nat) :=
  if tag = 116 then
    match bs with
    | [] => .error .underRun
    | b :: rest => .ok (.boolean (b ≠ 0), rest)
  else if tag = 73 then
    if 4 ≤ bs.length then
      .ok (.int32 (Int.ofNat (bytesToNatBE (bs.take 4))), bs.drop 4)
    else .error .underRun
  else if tag = 83 then
    if 4 ≤ bs.length then
      let len := bytesToNatBE (bs.take 4)
      let rest := bs.drop 4
      if len ≤ rest.length then .ok (.longstr (rest.take len), rest.drop len)
      else .error .underRun
    else .error .underRun
  else .error (.invalidTypeTag tag)

/-- Modelled from the spec: decode the entries of a table body. -/
def decodeTableEntries (bs : List Nat) (fuel : Nat) :
    Except CodecError FieldTable :=
  match fuel with
  | 0 => if bs.isEmpty then .ok [] else .error .lengthMismatch
  | fuel + 1 =>
    match bs with
    | [] => .ok []
    | nameLen :: rest =>
      if nameLen ≤ rest.length then
        let name := bytesToStr (rest.take nameLen)
        match rest.drop nameLen with
        | [] => .error .underRun
        | tag :: rest2 =>
          match decodeFieldValue tag rest2 with
          | .error e => .error e
          | .ok (v, rest3) =>
            match decodeTableEntries rest3 fuel with
            | .error e => .error e
            | .ok t => .ok ((name, v) :: t)
      else .error .underRun

/-- Modelled from the spec: decode a field table (`long` length prefix, then
entries). -/
def decodeTable (buf : DecodingBuffer) :
    Except CodecError (FieldTable × DecodingBuffer) :=
  match buf.readBytes 4 with
  | .error e => .error e
  | .ok (lenBytes, buf) =>
    let len := bytesToNatBE lenBytes
    match buf.readBytes len with
    | .error e => .error e
    | .ok (body, buf) =>
      match decodeTableEntries body body.length with
      | .error e => .error e
      | .ok t => .ok (t, buf)

/-- Decode one typed field (spec §4.1; mirror of `encodeField`). -/
def decodeField (buf : DecodingBuffer) : FieldType → Except CodecError (AqValue × DecodingBuffer)
  | .octet =>
    match buf.readBytes 1 with
    | .error e => .error e
    | .ok (bs, buf) => .ok (.nat (bytesToNatBE bs), buf)
  | .short =>
    match buf.readBytes 2 with
    | .error e => .error e
    | .ok (bs, buf) => .ok (.nat (bytesToNatBE bs), buf)
  | .long =>
    match buf.readBytes 4 with
    | .error e => .error e
    | .ok (bs, buf) => .ok (.nat (bytesToNatBE bs), buf)
  | .longlong =>
    match buf.readBytes 8 with
    | .error e => .error e
    | .ok (bs, buf) => .ok (.nat (bytesToNatBE bs), buf)
  | .shortstr =>
    match buf.readBytes 1 with
    | .error e => .error e
    | .ok (lenBs, buf) =>
      match buf.readBytes (bytesToNatBE lenBs) with
      | .error e => .error e
      | .ok (bs, buf) => .ok (.str (bytesToStr bs), buf)
  | .longstr =>
    match buf.readBytes 4 with
    | .error e => .error e
    | .ok (lenBs, buf) =>
      match buf.readBytes (bytesToNatBE lenBs) with
      | .error e => .error e
      | .ok (bs, buf) => .ok (.bytes bs, buf)
  | .bit =>
    match buf.readBit with
    | .error e => .error e
    | .ok (b, buf) => .ok (.bool b, buf)
  | .table =>
    match decodeTable buf with
    | .error e => .error e
    | .ok (t, buf) => .ok (.table t, buf)

/-- Decode a field list left to right (the body of `deserialise_payload`'s
field loop). -/
def decodeFields (buf : DecodingBuffer) :
    List FieldType → Except CodecError (List AqValue × DecodingBuffer)
  | [] => .ok ([], buf)
  | ft :: fts =>
    match decodeField buf ft with
    | .error e => .error e
    | .ok (v, buf) =>
      match decodeFields buf fts with
      | .error e => .error e
      | .ok (vs, buf) => .ok (v :: vs, buf)

/-! ## Method payloads (`method.py`)

One variant per payload class defined in the file.  Each variant's class-level
`klass` / `method` / `is_client_side` attributes become the functions below,
with the values transcribed from the source. -/

/-- The payload classes of `method.py`, i.e. the values of the inner
`PAYLOAD_TYPES` dicts. -/
inductive PayloadVariant where
  | start
  | startOk
  | secure
  | secureOk
  | tune
  | tuneOk
  | connectionOpen
  | connectionOpenOk
  | close
  | closeOk
  | channelOpen
  | channelOpenOk
  | flow
  | flowOk
  | channelClose
  | channelCloseOk
  | queueDeclare
  | queueDeclareOk
  | basicPublish
  | basicDeliver
deriving DecidableEq, Repr, Fintype

/-- The `klass` class attribute of each payload class. -/
def klassOf : PayloadVariant → ClassID
  | .start | .startOk | .secure | .secureOk | .tune | .tuneOk
  | .connectionOpen | .connectionOpenOk | .close | .closeOk => .CONNECTION
  | .channelOpen | .channelOpenOk | .flow | .flowOk
  | .channelClose | .channelCloseOk => .CHANNEL
  | .queueDeclare | .queueDeclareOk => .QUEUE
  | .basicPublish | .basicDeliver => .BASIC

/-- The `method` class attribute of each payload class. -/
def methodOf : PayloadVariant → Nat
  | .start => 10
  | .startOk => 11
  | .secure => 20
  | .secureOk => 21
  | .tune => 30
  | .tuneOk => 31
  | .connectionOpen => 40
  | .connectionOpenOk => 41
  | .close => 50
  | .closeOk => 51
  | .channelOpen => 10
  | .channelOpenOk => 11
  | .flow => 20
  | .flowOk => 21
  | .channelClose => 40
  | .channelCloseOk => 41
  | .queueDeclare => 10
  | .queueDeclareOk => 11
  | .basicPublish => 40
  | .basicDeliver => 60

/-- The `is_client_side` class attribute of each payload class, transcribed
value by value from `method.py` (lines 73, 99, 122, 136, 150, 170, 190, 207,
220, 243, 255, 268, 281, 295, 309, 332, 346, 380, 401, 426). -/
def is_client_side : PayloadVariant → Bool
  | .start => false
  | .startOk => true
  | .secure => false
  | .secureOk => true
  | .tune => false
  | .tuneOk => true
  | .connectionOpen => false
  | .connectionOpenOk => true
  | .close => true
  | .closeOk => true
  | .channelOpen => false
  | .channelOpenOk => true
  | .flow => true
  | .flowOk => true
  | .channelClose => true
  | .channelCloseOk => true
  | .queueDeclare => false
  | .queueDeclareOk => true
  | .basicPublish => false
  | .basicDeliver => true

/-- The attrs-registered fields of each payload class, with the wire type
taken from the `aq_type` metadata or the annotated Python type.

`basicDeliver` is the exception: `BasicDeliverPayload` (`method.py` line 419)
is the one payload class missing the `@attr.s` decorator, so the five
`attr.ib()` assignments in its body (lines 428-441) are never turned into
attrs fields — `attr.fields(BasicDeliverPayload)` returns the inherited empty
field tuple of `MethodPayload`, and the (de)serialisation loop therefore sees
no fields at all. -/
def fieldsOf : PayloadVariant → List FieldType
  | .start => [.octet, .octet, .table, .longstr, .longstr]
  | .startOk => [.table, .shortstr, .longstr, .shortstr]
  | .secure => [.longstr]
  | .secureOk => [.longstr]
  | .tune => [.short, .long, .short]
  | .tuneOk => [.short, .long, .short]
  | .connectionOpen => [.shortstr, .shortstr, .bit]
  | .connectionOpenOk => [.shortstr]
  | .close => [.short, .shortstr, .short, .short]
  | .closeOk => []
  | .channelOpen => [.shortstr]
  | .channelOpenOk => [.longstr]
  | .flow => [.bit]
  | .flowOk => [.bit]
  | .channelClose => [.short, .shortstr, .short, .short]
  | .channelCloseOk => []
  | .queueDeclare => [.short, .shortstr, .bit, .bit, .bit, .bit, .bit, .table]
  | .queueDeclareOk => [.shortstr, .long, .long]
  | .basicPublish => [.short, .shortstr, .shortstr, .bit, .bit]
  | .basicDeliver => []

/-- `ChannelClosePayload` (`method.py` lines 301-321): reply code, reply text
and the class/method of the offending method.  `ReplyCode` is an `IntEnum`
(`enums.py`, not under `src/`), modelled as its numeric value. -/
structure ChannelClosePayload where
  reply_code : Nat
  reply_text : String
  class_id : Nat
  method_id : Nat
deriving DecidableEq, Repr

/-- The runtime method-payload objects: one constructor per payload class,
carrying exactly the attrs-registered fields (see `fieldsOf`).  In particular
`basicDeliver` carries no data: with the `@attr.s` decorator missing from
`BasicDeliverPayload`, the class's generated `__init__` is the base class's
zero-field one, so no instance can hold the documented five fields. -/
inductive MethodPayload where
  | start (version_major version_minor : Nat) (properties : FieldTable)
      (mechanisms locales : List Nat)
  | startOk (properties : FieldTable) (mechanism : String) (response : List Nat)
      (locale : String)
  | secure (challenge : List Nat)
  | secureOk (response : List Nat)
  | tune (max_channels max_frame_size heartbeat_delay : Nat)
  | tuneOk (max_channels max_frame_size heartbeat_delay : Nat)
  | connectionOpen (virtual_host reserved_1 : String) (reserved_2 : Bool)
  | connectionOpenOk (reserved_1 : String)
  | close (reply_code : Nat) (reply_text : String) (class_id method_id : Nat)
  | closeOk
  | channelOpen (reserved_1 : String)
  | channelOpenOk (reserved_1 : List Nat)
  | flow (active : Bool)
  | flowOk (active : Bool)
  | channelClose (payload : ChannelClosePayload)
  | channelCloseOk
  | queueDeclare (reserved_1 : Nat) (name : String)
      (passive durable exclusive auto_delete no_wait : Bool) (arguments : FieldTable)
  | queueDeclareOk (name : String) (message_count consumer_count : Nat)
  | basicPublish (reserved_1 : Nat) (name routing_key : String)
      (mandatory immediate : Bool)
  | basicDeliver
deriving DecidableEq, Repr

/-- `type(payload)`: the class of a payload object. -/
def variantOf : MethodPayload → PayloadVariant
  | .start .. => .start
  | .startOk .. => .startOk
  | .secure .. => .secure
  | .secureOk .. => .secureOk
  | .tune .. => .tune
  | .tuneOk .. => .tuneOk
  | .connectionOpen .. => .connectionOpen
  | .connectionOpenOk .. => .connectionOpenOk
  | .close .. => .close
  | .closeOk => .closeOk
  | .channelOpen .. => .channelOpen
  | .channelOpenOk .. => .channelOpenOk
  | .flow .. => .flow
  | .flowOk .. => .flowOk
  | .channelClose .. => .channelClose
  | .channelCloseOk => .channelCloseOk
  | .queueDeclare .. => .queueDeclare
  | .queueDeclareOk .. => .queueDeclareOk
  | .basicPublish .. => .basicPublish
  | .basicDeliver => .basicDeliver

/-- The attrs-registered field values of a payload object, in declaration
order, paired with their wire types — what `serialise_payload`'s
`for field in fields` loop iterates over.  `basicDeliver` yields `[]`: attrs
registered no fields for it (missing `@attr.s`, see `fieldsOf`). -/
def fieldValues : MethodPayload → List (FieldType × AqValue)
  | .start a b props mech loc =>
    [(.octet, .nat a), (.octet, .nat b), (.table, .table props),
     (.longstr, .bytes mech), (.longstr, .bytes loc)]
  | .startOk props mech resp loc =>
    [(.table, .table props), (.shortstr, .str mech), (.longstr, .bytes resp),
     (.shortstr, .str loc)]
  | .secure ch => [(.longstr, .bytes ch)]
  | .secureOk resp => [(.longstr, .bytes resp)]
  | .tune mc mf hb => [(.short, .nat mc), (.long, .nat mf), (.short, .nat hb)]
  | .tuneOk mc mf hb => [(.short, .nat mc), (.long, .nat mf), (.short, .nat hb)]
  | .connectionOpen vh r1 r2 =>
    [(.shortstr, .str vh), (.shortstr, .str r1), (.bit, .bool r2)]
  | .connectionOpenOk r1 => [(.shortstr, .str r1)]
  | .close rc rt ci mi =>
    [(.short, .nat rc), (.shortstr, .str rt), (.short, .nat ci), (.short, .nat mi)]
  | .closeOk => []
  | .channelOpen r1 => [(.shortstr, .str r1)]
  | .channelOpenOk r1 => [(.longstr, .bytes r1)]
  | .flow a => [(.bit, .bool a)]
  | .flowOk a => [(.bit, .bool a)]
  | .channelClose p =>
    [(.short, .nat p.reply_code), (.shortstr, .str p.reply_text),
     (.short, .nat p.class_id), (.short, .nat p.method_id)]
  | .channelCloseOk => []
  | .queueDeclare r1 name pas dur exc ad nw args =>
    [(.short, .nat r1), (.shortstr, .str name), (.bit, .bool pas), (.bit, .bool dur),
     (.bit, .bool exc), (.bit, .bool ad), (.bit, .bool nw), (.table, .table args)]
  | .queueDeclareOk name mc cc =>
    [(.shortstr, .str name), (.long, .nat mc), (.long, .nat cc)]
  | .basicPublish r1 name rk m i =>
    [(.short, .nat r1), (.shortstr, .str name), (.shortstr, .str rk),
     (.bit, .bool m), (.bit, .bool i)]
  | .basicDeliver => []

/-- `payload_klass(**init_params)`: build the payload object of a class from
its decoded field values (shapes match `fieldsOf` by construction; a mismatch
yields `none` and is unreachable from `deserialise_payload`). -/
def mkPayload : PayloadVariant → List AqValue → Option MethodPayload
  | .start, [.nat a, .nat b, .table t, .bytes m, .bytes l] => some (.start a b t m l)
  | .startOk, [.table t, .str m, .bytes r, .str l] => some (.startOk t m r l)
  | .secure, [.bytes c] => some (.secure c)
  | .secureOk, [.bytes r] => some (.secureOk r)
  | .tune, [.nat a, .nat b, .nat c] => some (.tune a b c)
  | .tuneOk, [.nat a, .nat b, .nat c] => some (.tuneOk a b c)
  | .connectionOpen, [.str v, .str r, .bool b] => some (.connectionOpen v r b)
  | .connectionOpenOk, [.str r] => some (.connectionOpenOk r)
  | .close, [.nat rc, .str rt, .nat ci, .nat mi] => some (.close rc rt ci mi)
  | .closeOk, [] => some .closeOk
  | .channelOpen, [.str r] => some (.channelOpen r)
  | .channelOpenOk, [.bytes r] => some (.channelOpenOk r)
  | .flow, [.bool a] => some (.flow a)
  | .flowOk, [.bool a] => some (.flowOk a)
  | .channelClose, [.nat rc, .str rt, .nat ci, .nat mi] =>
    some (.channelClose ⟨rc, rt, ci, mi⟩)
  | .channelCloseOk, [] => some .channelCloseOk
  | .queueDeclare, [.nat r1, .str n, .bool p, .bool d, .bool e, .bool a, .bool nw, .table t] =>
    some (.queueDeclare r1 n p d e a nw t)
  | .queueDeclareOk, [.str n, .nat mc, .nat cc] => some (.queueDeclareOk n mc cc)
  | .basicPublish, [.nat r1, .str n, .str rk, .bool m, .bool i] =>
    some (.basicPublish r1 n rk m i)
  | .basicDeliver, [] => some .basicDeliver
  | _, _ => none

/-- The `PAYLOAD_TYPES` registry (`method.py` lines 445-474): a dict keyed by
`ClassID` whose values map each class's `method` numbers to payload classes.
The dict literal has entries for `CONNECTION`, `CHANNEL`, `QUEUE` and `BASIC`
only; `EXCHANGE` and `TX` keys are absent (`none`). -/
def PAYLOAD_TYPES : ClassID → Option (List (Nat × PayloadVariant))
  | .CONNECTION => some
    [(methodOf .start, .start), (methodOf .startOk, .startOk),
     (methodOf .secure, .secure), (methodOf .secureOk, .secureOk),
     (methodOf .tune, .tune), (methodOf .tuneOk, .tuneOk),
     (methodOf .connectionOpen, .connectionOpen),
     (methodOf .connectionOpenOk, .connectionOpenOk),
     (methodOf .close, .close), (methodOf .closeOk, .closeOk)]
  | .CHANNEL => some
    [(methodOf .channelOpen, .channelOpen), (methodOf .channelOpenOk, .channelOpenOk),
     (methodOf .flow, .flow), (methodOf .flowOk, .flowOk),
     (methodOf .channelClose, .channelClose),
     (methodOf .channelCloseOk, .channelCloseOk)]
  | .QUEUE => some
    [(methodOf .queueDeclare, .queueDeclare), (methodOf .queueDeclareOk, .queueDeclareOk)]
  | .BASIC => some
    [(methodOf .basicPublish, .basicPublish), (methodOf .basicDeliver, .basicDeliver)]
  | .EXCHANGE => none
  | .TX => none

/-- The failure modes of `deserialise_payload`'s header handling: the
`ClassID(...)` conversion (`ValueError`), the two dict lookups (`KeyError`),
and field-decode codec failures. -/
inductive DeserErr where
  | invalidClassId (n : Nat)
  | unknownClass (c : ClassID)
  | unknownMethod (c : ClassID) (m : Nat)
  | codec (e : CodecError)
deriving DecidableEq, Repr

/-- The header parse and registry dispatch of `deserialise_payload`
(`method.py` lines 485-491): read the two big-endian `u16` headers, convert
the first to a `ClassID`, then look up `PAYLOAD_TYPES[klass][method]`. -/
def lookup_payload_type (klassNum methodNum : Nat) : Except DeserErr PayloadVariant :=
  match classIdOfNat klassNum with
  | none => .error (.invalidClassId klassNum)
  | some klass =>
    match PAYLOAD_TYPES klass with
    | none => .error (.unknownClass klass)
    | some tbl =>
      match tbl.lookup methodNum with
      | none => .error (.unknownMethod klass methodNum)
      | some v => .ok v

/-- `deserialise_payload` (`method.py` lines 477-500): split off the 4-byte
class/method header, dispatch through `PAYLOAD_TYPES`, then decode the
variant's attrs fields from the rest and construct the payload object.
Trailing bytes beyond the registered fields are ignored, exactly as the
source's field loop ignores them. -/
def deserialise_payload (body : List Nat) : Except DeserErr MethodPayload :=
  let klassNum := bytesToNatBE (body.take 2)
  let methodNum := bytesToNatBE ((body.drop 2).take 2)
  let rest := body.drop 4
  match lookup_payload_type klassNum methodNum with
  | .error e => .error e
  | .ok v =>
    match decodeFields ⟨rest, none⟩ (fieldsOf v) with
    | .error e => .error (.codec e)
    | .ok (vals, _) =>
      match mkPayload v vals with
      | some p => .ok p
      | none => .error (.codec .lengthMismatch)

/-- `serialise_payload` (`method.py` lines 503-519): the 4-byte big-endian
class/method header, then the attrs-registered fields, then the final
`force_write_bits` flush. -/
def serialise_payload (p : MethodPayload) : List Nat :=
  let v := variantOf p
  let header := natToBytesBE 2 (klassOf v).value ++ natToBytesBE 2 (methodOf v)
  header ++ ((encodeFields (fieldValues p)).forceWriteBits).out

/-- Modelled from the spec: the wire encoding of the five `Basic.Deliver`
fields documented (but not attrs-registered) at `method.py` lines 428-441 —
`shortstr consumer_tag`, `longlong delivery_tag`, `bit redelivered`,
`shortstr exchange_name`, `shortstr routing_key` — as a compliant peer would
send them. -/
def deliverFieldBytes (consumer_tag : String) (delivery_tag : Nat)
    (redelivered : Bool) (exchange_name routing_key : String) : List Nat :=
  ((encodeFields
    [(.shortstr, .str consumer_tag), (.longlong, .nat delivery_tag),
     (.bit, .bool redelivered), (.shortstr, .str exchange_name),
     (.shortstr, .str routing_key)]).forceWriteBits).out

/-! ## Channel state machine (`channel.py`)

The channel's awaitable operations are embedded as functions from the channel
state (the mutable attributes set in `Channel.__init__`) and the inbound reply
behaviour to a result together with the ordered trace of externally visible
events (lock transitions, frames handed to the connection, reply receipts). -/

/-- Modelled from the spec (§3): `BasicHeader` — the content properties
preceding a body; any subset may be present (`payloads/header.py` is not under
`src/`).  `BasicHeader()` with no arguments is the all-absent blank header. -/
structure BasicHeader where
  content_type : Option String := none
  content_encoding : Option String := none
  headers : Option FieldTable := none
  delivery_mode : Option Nat := none
  priority : Option Nat := none
  correlation_id : Option String := none
  reply_to : Option String := none
  expiration : Option String := none
  message_id : Option String := none
  timestamp : Option Nat := none
  message_type : Option String := none
  user_id : Option String := none
  app_id : Option String := none
  cluster_id : Option String := none
deriving DecidableEq, Repr

/-- `BasicHeader()`: the default blank header. -/
def blankBasicHeader : BasicHeader := {}

/-- A `MethodFrame` (`method.py` lines 52-61) as a channel sees it on its
reply rendezvous: the carried payload.  (The `Frame` base fields live in
`frame.py`, not under `src/`; nothing in `channel.py`'s embedded operations
reads them.) -/
structure MethodFrame where
  payload : MethodPayload
deriving DecidableEq, Repr

/-- Modelled from the spec (§6): `UnexpectedCloseError` carries
`{reply_code, reply_text, class_id, method_id}` (`exc.py` is not under
`src/`). -/
structure UnexpectedCloseError where
  reply_code : Nat
  reply_text : String
  class_id : Nat
  method_id : Nat
deriving DecidableEq, Repr

/-- Modelled from the spec (§6/§7): `UnexpectedCloseError.of` builds the error
from the recorded `ChannelClosePayload`, copying its four fields. -/
def UnexpectedCloseError.of (p : ChannelClosePayload) : UnexpectedCloseError :=
  ⟨p.reply_code, p.reply_text, p.class_id, p.method_id⟩

/-- The exceptions the embedded channel operations can raise:
`anyio.ClosedResourceError`, `AMQPStateError`, `UnexpectedCloseError`, and
Python's `AttributeError` (for a reply payload without the attribute being
read). -/
inductive ChannelError where
  | closedResource
  | amqpStateError (msg : String)
  | unexpectedClose (e : UnexpectedCloseError)
  | attributeError
deriving DecidableEq, Repr

/-- The channel's mutable state (`Channel.__init__`, `channel.py` lines
33-60): its id, the `_open` flag, the recorded `_close_info`, and the two flow
flags.  The stream objects, lock and wakeup event are represented by the
operations' traces rather than stored. -/
structure ChannelState where
  channelId : Nat
  isOpen : Bool
  closeInfo : Option ChannelClosePayload
  serverFlowStopped : Bool
  clientFlowStopped : Bool
deriving DecidableEq, Repr

/-- An externally visible step of a channel operation. -/
inductive Event where
  | lockAcquire
  | lockRelease
  | sendMethod (channelId : Nat) (payload : MethodPayload)
  | sendHeader (channelId : Nat) (bodyLength : Nat) (header : BasicHeader)
  | sendBody (channelId : Nat) (chunk : List Nat)
  | recv (f : MethodFrame)
deriving DecidableEq, Repr

/-- What `await self._receive.receive()` yields on the reply rendezvous:
either a frame, or `EndOfStream` once the stream has been closed. -/
inductive Inbound where
  | frame (f : MethodFrame)
  | endOfStream
deriving DecidableEq, Repr

/-- `Channel._close` (`channel.py` lines 108-116): close both streams, clear
`_open` and record the close payload in `_close_info`.  (The closed streams
are what make subsequent receives observe `Inbound.endOfStream`.) -/
def closeChannel (st : ChannelState) (payload : ChannelClosePayload) : ChannelState :=
  { st with isOpen := false, closeInfo := some payload }

/-- The body of `Channel._receive_frame`'s `try` block (`channel.py` lines
139-151), i.e. the part a waiter runs after passing `_check_closed`:
`stAtWake` is the channel state at the moment the blocked
`await self._receive.receive()` resumes.  On `EndOfStream` the waiter raises
`UnexpectedCloseError.of(close_info)` when `_close_info` was recorded, and
`AMQPStateError` when it was not. -/
def receive_frame_blocked (stAtWake : ChannelState) (inc : Inbound) :
    Except ChannelError MethodFrame :=
  match inc with
  | .frame f => .ok f
  | .endOfStream =>
    match stAtWake.closeInfo with
    | none => .error (.amqpStateError "Channel was closed improperly")
    | some p => .error (.unexpectedClose (UnexpectedCloseError.of p))

/-- `Channel._receive_frame` (`channel.py` lines 132-151): `_check_closed`
against the state at entry, then the blocking receive. -/
def receive_frame (stAtEntry stAtWake : ChannelState) (inc : Inbound) :
    Except ChannelError MethodFrame :=
  if stAtEntry.isOpen = false then .error .closedResource
  else receive_frame_blocked stAtWake inc

/-- Python attribute access `payload.name`: only `QueueDeclarePayload`,
`QueueDeclareOkPayload` and `BasicPublishPayload` define a field called
`name`; on every other payload class the access raises `AttributeError`
(`none`). -/
def payloadName : MethodPayload → Option String
  | .queueDeclare _ n .. => some n
  | .queueDeclareOk n .. => some n
  | .basicPublish _ n .. => some n
  | _ => none

/-- `Channel._send_and_receive_frame` (`channel.py` lines 169-182): under the
channel lock, hand the method frame to the connection, then block on the reply
rendezvous and return whatever frame arrives.  The `type` parameter
(`_expected` here) is used only as a static annotation — the received payload
is never checked against it. -/
def send_and_receive_frame (st : ChannelState) (payload : MethodPayload)
    (_expected : Option PayloadVariant) (inc : Inbound) :
    Except ChannelError MethodFrame × List Event :=
  match receive_frame st st inc with
  | .ok f =>
    (.ok f, [.lockAcquire, .sendMethod st.channelId payload, .recv f, .lockRelease])
  | .error e =>
    (.error e, [.lockAcquire, .sendMethod st.channelId payload, .lockRelease])

/-- `Channel.queue_declare` (`channel.py` lines 185-230): `_check_closed`,
build the `QueueDeclarePayload` (`reserved_1=0`, `no_wait=False`,
`arguments or {}`; `name or ""` is the identity on strings), send it and await
the reply, then return `result.payload.name` — only the name. -/
def queue_declare (st : ChannelState) (name : String)
    (passive durable exclusive auto_delete : Bool) (arguments : Option FieldTable)
    (inc : Inbound) : Except ChannelError String × List Event :=
  if st.isOpen = false then (.error .closedResource, [])
  else
    let payload : MethodPayload :=
      .queueDeclare 0 name passive durable exclusive auto_delete false
        (arguments.getD [])
    match send_and_receive_frame st payload (some .queueDeclareOk) inc with
    | (.ok f, tr) =>
      match payloadName f.payload with
      | some n => (.ok n, tr)
      | none => (.error .attributeError, tr)
    | (.error e, tr) => (.error e, tr)

/-- Split a list into chunks of `cs` bytes, with enough fuel. -/
def chunksOfFuel (cs : Nat) : Nat → List Nat → List (List Nat)
  | 0, _ => []
  | _, [] => []
  | fuel + 1, x :: xs => ((x :: xs).take cs) :: chunksOfFuel cs fuel ((x :: xs).drop cs)

/-- Modelled from the spec (§4.4): `AMQPConnection._send_body_frames`
(`connection.py`, not under `src/`) splits the body into
`max_frame_size − 8`-byte chunks and writes each as one body frame. -/
def send_body_frames (channelId maxFrameSize : Nat) (body : List Nat) : List Event :=
  (chunksOfFuel (maxFrameSize - 8) body.length body).map (Event.sendBody channelId)

/-- `Channel.basic_publish` (`channel.py` lines 232-283): `_check_closed`,
then under the channel lock build the `BasicPublishPayload` (`reserved_1=1`),
send the method frame, send one header frame with `body_length=len(body)` and
`header or BasicHeader()`, then send the body frames.  Nothing is awaited from
the reply rendezvous and the result is unit. -/
def basic_publish (st : ChannelState) (exchange_name routing_key : String)
    (body : List Nat) (header : Option BasicHeader) (mandatory immediate : Bool)
    (maxFrameSize : Nat) : Except ChannelError Unit × List Event :=
  if st.isOpen = false then (.error .closedResource, [])
  else
    let method_payload : MethodPayload :=
      .basicPublish 1 exchange_name routing_key mandatory immediate
    let headers := header.getD blankBasicHeader
    (.ok (),
      [.lockAcquire, .sendMethod st.channelId method_payload,
       .sendHeader st.channelId body.length headers]
      ++ send_body_frames st.channelId maxFrameSize body ++ [.lockRelease])

/-! ## Interleavings of two channel operations

For the lock-serialization claim: an interleaving of two operations on the
same channel is a list of events tagged with the operation they belong to;
`proj` recovers each operation's own trace.  `MutEx` says the lock is a lock:
no instant (no prefix of the interleaving) has both operations holding it. -/

/-- The events of operation `b` in tagged interleaving `s`, in order. -/
abbrev proj (b : Bool) (s : List (Bool × Event)) : List Event :=
  (s.filter (fun e => e.1 = b)).map Prod.snd

/-- Operation `b` holds the channel lock at the end of `s`: it has acquired
and not yet released. -/
abbrev holdsLock (b : Bool) (s : List (Bool × Event)) : Prop :=
  Event.lockAcquire ∈ proj b s ∧ Event.lockRelease ∉ proj b s

/-- The lock provides mutual exclusion along `s`: at no instant do both
operations hold it. -/
abbrev MutEx (s : List (Bool × Event)) : Prop :=
  ∀ n ≤ s.length, ¬(holdsLock true (s.take n) ∧ holdsLock false (s.take n))

/-- Operation `b`'s synchronous request (send `p`, await reply `f`) is
outstanding at the end of `s`: the method was sent but the reply not yet
received. -/
abbrev outstandingReq (cid : Nat) (p : MethodPayload) (f : MethodFrame)
    (b : Bool) (s : List (Bool × Event)) : Prop :=
  Event.sendMethod cid p ∈ proj b s ∧ Event.recv f ∉ proj b s

/-! ## Shared concrete states -/

/-- An open channel with id 1 and nothing recorded. -/
def chOpen : ChannelState := ⟨1, true, none, false, false⟩

/-- A channel with id 1 that is not open. -/
def chClosed : ChannelState := ⟨1, false, none, false, false⟩

/-! ## Claims -/

/-- Claim C1 (the code loses the fields of `Basic.Deliver`): a compliant
peer's `Basic.Deliver` wire body — the 4-byte class/method header `60/60`
followed by the encoded `consumer_tag`, `delivery_tag`, `redelivered`,
`exchange_name`, `routing_key` fields — deserialises to the field-less
`basicDeliver` payload (the field bytes are silently ignored), and
re-serialising that payload produces only the 4-byte header, not the original
body.  The five fields documented in `BasicDeliverPayload`'s class body are
never carried through `serialise_payload` / `deserialise_payload` because the
class is missing its `@attr.s` decorator, contradicting the claimed
`decode(encode(P)) == P` round-trip of every variant's fields. -/
theorem C1_basic_deliver_fields_dropped :
    deserialise_payload ([0, 60, 0, 60] ++ deliverFieldBytes "ctag" 1 false "exch" "rkey")
      = .ok .basicDeliver
    ∧ serialise_payload .basicDeliver = [0, 60, 0, 60]
    ∧ deliverFieldBytes "ctag" 1 false "exch" "rkey" ≠ [] := by
  refine ⟨by decide, by decide, by decide⟩

/-- Counterexample to claim C2 as stated: with the server replying
`Queue.DeclareOk(name="q", message_count=3, consumer_count=2)`,
`queue_declare` returns only the string `"q"`, and its result is unchanged
when the reply's `message_count`/`consumer_count` are different — so the
returned value cannot be the claimed `{name, message_count, consumer_count}`
triple. -/
theorem C2_returns_name_only :
    (queue_declare chOpen "q" false false false false none
        (.frame ⟨.queueDeclareOk "q" 3 2⟩)).1 = .ok "q"
    ∧ (queue_declare chOpen "q" false false false false none
        (.frame ⟨.queueDeclareOk "q" 3 2⟩)).1 =
      (queue_declare chOpen "q" false false false false none
        (.frame ⟨.queueDeclareOk "q" 99 7⟩)).1 := by
  refine ⟨by decide, by decide⟩

/-- Claim C2, amended: on an open channel, `queue_declare` sends exactly the
`Queue.Declare` method (with `reserved_1=0`, `no_wait=False`, the given flags
and arguments) under the channel lock, awaits the `Queue.DeclareOk` reply, and
returns the `name` carried by that reply (only the name; `message_count` and
`consumer_count` are not exposed — a TODO in the source). -/
theorem C2_amended_returns_declare_ok_name (st : ChannelState) (name : String)
    (passive durable exclusive auto_delete : Bool) (args : Option FieldTable)
    (n : String) (mc cc : Nat) (hopen : st.isOpen = true) :
    queue_declare st name passive durable exclusive auto_delete args
        (.frame ⟨.queueDeclareOk n mc cc⟩) =
      (.ok n,
       [.lockAcquire,
        .sendMethod st.channelId
          (.queueDeclare 0 name passive durable exclusive auto_delete false
            (args.getD [])),
        .recv ⟨.queueDeclareOk n mc cc⟩, .lockRelease]) := by
  simp [queue_declare, send_and_receive_frame, receive_frame, receive_frame_blocked,
    payloadName, hopen]

/-- Witness for `C2_amended_returns_declare_ok_name` at a concrete input. -/
theorem C2_amended_returns_declare_ok_name_witness :
    chOpen.isOpen = true
    ∧ queue_declare chOpen "q" false true false false none
        (.frame ⟨.queueDeclareOk "amq.gen-1" 3 2⟩) =
      (.ok "amq.gen-1",
       [.lockAcquire,
        .sendMethod 1 (.queueDeclare 0 "q" false true false false false []),
        .recv ⟨.queueDeclareOk "amq.gen-1" 3 2⟩, .lockRelease]) :=
  ⟨rfl, C2_amended_returns_declare_ok_name chOpen "q" false true false false none
    "amq.gen-1" 3 2 rfl⟩

/-- Claim C3 (the `is_client_side` tags are inverted): the variants the client
emits during normal operation — `Queue.Declare`, `Basic.Publish`,
`Channel.Open`, `Connection.Open` — all carry `is_client_side = False` in the
source, even though `Channel.queue_declare` and `Channel.basic_publish`
themselves emit the first two (shown here by their traces), contradicting the
claim and the attribute's own docstring ("a payload sent FROM the client");
dually, the server-emitted `Queue.DeclareOk`, `Channel.OpenOk`,
`Connection.OpenOk` and `Basic.Deliver` carry `True`. -/
theorem C3_is_client_side_flags :
    is_client_side .queueDeclare = false
    ∧ is_client_side .basicPublish = false
    ∧ is_client_side .channelOpen = false
    ∧ is_client_side .connectionOpen = false
    ∧ is_client_side .queueDeclareOk = true
    ∧ is_client_side .channelOpenOk = true
    ∧ is_client_side .connectionOpenOk = true
    ∧ is_client_side .basicDeliver = true
    ∧ Event.sendMethod 1 (.queueDeclare 0 "q" false false false false false [])
        ∈ (queue_declare chOpen "q" false false false false none
            (.frame ⟨.queueDeclareOk "q" 0 0⟩)).2
    ∧ Event.sendMethod 1 (.basicPublish 1 "" "rk" true false)
        ∈ (basic_publish chOpen "" "rk" [104] none true false 4096).2 := by
  refine ⟨rfl, rfl, rfl, rfl, rfl, rfl, rfl, rfl, by decide, by decide⟩

/-- Counterexample to claim C4 as stated: a received method of class
EXCHANGE (40) or TX (90) makes `deserialise_payload` fail on the class lookup
(`PAYLOAD_TYPES` has no entry for either class), rather than dispatching to a
payload variant. -/
theorem C4_exchange_tx_not_in_registry :
    deserialise_payload [0, 40, 0, 10] = .error (.unknownClass .EXCHANGE)
    ∧ deserialise_payload [0, 90, 0, 10] = .error (.unknownClass .TX) := by
  refine ⟨by decide, by decide⟩

/-- Claim C4, amended: the registry is keyed by `(class_id, method_id)` but
covers only CONNECTION (10), CHANNEL (20), QUEUE (50) and BASIC (60): every
`(class, method)` pair present in `PAYLOAD_TYPES` dispatches through
`lookup_payload_type` to a payload variant of that class, while for
EXCHANGE (40) and TX (90) every received pair fails on the class lookup. -/
theorem C4_registry_covers_four_classes :
    (∀ c : ClassID, (PAYLOAD_TYPES c).isSome ↔ (c ≠ .EXCHANGE ∧ c ≠ .TX))
    ∧ (∀ c : ClassID, ∀ mv ∈ (PAYLOAD_TYPES c).getD [],
        lookup_payload_type c.value mv.1 = .ok mv.2 ∧ klassOf mv.2 = c)
    ∧ (∀ m : Nat, lookup_payload_type 40 m = .error (.unknownClass .EXCHANGE))
    ∧ (∀ m : Nat, lookup_payload_type 90 m = .error (.unknownClass .TX)) := by
  refine ⟨by decide, by decide, fun _ => rfl, fun _ => rfl⟩

/-- Witness for `C4_registry_covers_four_classes` at a concrete registry
entry. -/
theorem C4_registry_covers_four_classes_witness :
    (10, PayloadVariant.queueDeclare) ∈ (PAYLOAD_TYPES .QUEUE).getD []
    ∧ (lookup_payload_type ClassID.QUEUE.value 10 = .ok .queueDeclare
       ∧ klassOf .queueDeclare = .QUEUE) :=
  ⟨by decide, C4_registry_covers_four_classes.2.1 .QUEUE (10, .queueDeclare) (by decide)⟩

/-- `sendMethod` events? -/
def isSendMethodEvt : Event → Bool
  | .sendMethod .. => true
  | _ => false

/-- `sendHeader` events? -/
def isSendHeaderEvt : Event → Bool
  | .sendHeader .. => true
  | _ => false

/-- `recv` events? -/
def isRecvEvt : Event → Bool
  | .recv _ => true
  | _ => false

/-- Body-frame events are neither method nor header sends nor receipts. -/
theorem countP_sendBody_map (p : Event → Bool)
    (hp : ∀ cid c, p (Event.sendBody cid c) = false) (cid : Nat)
    (l : List (List Nat)) : (l.map (Event.sendBody cid)).countP p = 0 := by
  induction l with
  | nil => rfl
  | cons x xs ih => simp [List.countP_cons, hp, ih]

/-- With a positive chunk size and enough fuel, the chunks concatenate back to
the original list. -/
theorem chunksOfFuel_join (cs : Nat) (hcs : 0 < cs) :
    ∀ fuel body, body.length ≤ fuel → (chunksOfFuel cs fuel body).flatten = body := by
  intro fuel
  induction fuel with
  | zero =>
    intro body hb
    cases body with
    | nil => rfl
    | cons x xs => simp at hb
  | succ fuel ih =>
    intro body hb
    cases body with
    | nil => rfl
    | cons x xs =>
      simp only [chunksOfFuel, List.flatten_cons]
      rw [ih ((x :: xs).drop cs) ?_, List.take_append_drop]
      have : (x :: xs).length = xs.length + 1 := rfl
      simp only [List.length_drop, this]
      omega

/-- Every produced chunk has at most `cs` bytes. -/
theorem chunksOfFuel_len_le (cs : Nat) :
    ∀ fuel body c, c ∈ chunksOfFuel cs fuel body → c.length ≤ cs := by
  intro fuel
  induction fuel with
  | zero => intro body c hc; simp [chunksOfFuel] at hc
  | succ fuel ih =>
    intro body c hc
    cases body with
    | nil => simp [chunksOfFuel] at hc
    | cons x xs =>
      simp only [chunksOfFuel, List.mem_cons] at hc
      rcases hc with h | h
      · subst h; exact List.length_take_le cs (x :: xs)
      · exact ih _ _ h

/-- Claim C5: on an open channel, `basic_publish` emits — while holding the
channel lock — exactly one `Basic.Publish` method frame (`reserved_1=1`, the
given exchange, routing key and flags), then exactly one header frame whose
declared body length is `len(body)` and which carries the given properties
(the blank `BasicHeader()` when none is given), then the body as body frames
of at most `max_frame_size − 8` bytes whose concatenation is the body; it
awaits no reply (no `recv` event) and returns unit. -/
theorem C5_basic_publish_sequence (st : ChannelState) (ex rk : String)
    (body : List Nat) (header : Option BasicHeader) (mandatory immediate : Bool)
    (mfs : Nat) (hopen : st.isOpen = true) (hmfs : 8 < mfs) :
    basic_publish st ex rk body header mandatory immediate mfs =
      (.ok (),
        [.lockAcquire,
         .sendMethod st.channelId (.basicPublish 1 ex rk mandatory immediate),
         .sendHeader st.channelId body.length (header.getD blankBasicHeader)]
        ++ (chunksOfFuel (mfs - 8) body.length body).map (Event.sendBody st.channelId)
        ++ [.lockRelease])
    ∧ (chunksOfFuel (mfs - 8) body.length body).flatten = body
    ∧ (∀ c ∈ chunksOfFuel (mfs - 8) body.length body, c.length ≤ mfs - 8)
    ∧ (basic_publish st ex rk body header mandatory immediate mfs).2.countP
        isSendMethodEvt = 1
    ∧ (basic_publish st ex rk body header mandatory immediate mfs).2.countP
        isSendHeaderEvt = 1
    ∧ (basic_publish st ex rk body header mandatory immediate mfs).2.countP
        isRecvEvt = 0 := by
  have hjoin := chunksOfFuel_join (mfs - 8) (by omega) body.length body (le_refl _)
  refine ⟨by simp [basic_publish, send_body_frames, hopen], hjoin,
    fun c hc => chunksOfFuel_len_le _ _ _ c hc, ?_, ?_, ?_⟩ <;>
    simp [basic_publish, send_body_frames, hopen, List.countP_append, List.countP_cons,
      isSendMethodEvt, isSendHeaderEvt, isRecvEvt,
      countP_sendBody_map isSendMethodEvt (fun _ _ => rfl),
      countP_sendBody_map isSendHeaderEvt (fun _ _ => rfl),
      countP_sendBody_map isRecvEvt (fun _ _ => rfl)]

/-- Witness for `C5_basic_publish_sequence` at a concrete publish. -/
theorem C5_basic_publish_sequence_witness :
    chOpen.isOpen = true ∧ 8 < 4096
    ∧ basic_publish chOpen "" "rk" [104, 105] none true false 4096 =
      (.ok (),
        [.lockAcquire, .sendMethod 1 (.basicPublish 1 "" "rk" true false),
         .sendHeader 1 2 blankBasicHeader]
        ++ (chunksOfFuel 4088 2 [104, 105]).map (Event.sendBody 1)
        ++ [.lockRelease]) :=
  ⟨rfl, by decide,
    (C5_basic_publish_sequence chOpen "" "rk" [104, 105] none true false 4096
      rfl (by decide)).1⟩

/-- Claim C6: after `Channel._close` records a `ChannelClosePayload`, a waiter
blocked on the reply rendezvous that observes end-of-stream raises
`UnexpectedCloseError` carrying exactly the recorded
`{reply_code, reply_text, class_id, method_id}` — not a generic end-of-stream
— while an end-of-stream with no recorded `close_info` raises
`AMQPStateError`. -/
theorem C6_close_info_propagation (st : ChannelState) (p : ChannelClosePayload)
    (hnone : st.closeInfo = none) :
    (closeChannel st p).closeInfo = some p
    ∧ (closeChannel st p).isOpen = false
    ∧ receive_frame_blocked (closeChannel st p) .endOfStream =
        .error (.unexpectedClose ⟨p.reply_code, p.reply_text, p.class_id, p.method_id⟩)
    ∧ receive_frame_blocked st .endOfStream =
        .error (.amqpStateError "Channel was closed improperly") := by
  exact ⟨rfl, rfl, rfl, by simp [receive_frame_blocked, hnone]⟩

/-- Witness for `C6_close_info_propagation` at a concrete close payload. -/
theorem C6_close_info_propagation_witness :
    (closeChannel chOpen ⟨404, "NOT_FOUND", 50, 20⟩).closeInfo =
        some ⟨404, "NOT_FOUND", 50, 20⟩
    ∧ (closeChannel chOpen ⟨404, "NOT_FOUND", 50, 20⟩).isOpen = false
    ∧ receive_frame_blocked (closeChannel chOpen ⟨404, "NOT_FOUND", 50, 20⟩)
        .endOfStream = .error (.unexpectedClose ⟨404, "NOT_FOUND", 50, 20⟩)
    ∧ receive_frame_blocked chOpen .endOfStream =
        .error (.amqpStateError "Channel was closed improperly") :=
  C6_close_info_propagation chOpen ⟨404, "NOT_FOUND", 50, 20⟩ rfl

/-- Claim C7: on a channel that is not open, both `queue_declare` and
`basic_publish` fail with `ClosedResource` at operation entry — the returned
trace is empty, so no frame (and no lock transition) happens; the operations
read but never write the channel state, so the state is unchanged and the
connection is untouched. -/
theorem C7_closed_channel_guard (st : ChannelState) (name ex rk : String)
    (passive durable exclusive auto_delete : Bool) (args : Option FieldTable)
    (inc : Inbound) (body : List Nat) (hdr : Option BasicHeader)
    (mandatory immediate : Bool) (mfs : Nat) (h : st.isOpen = false) :
    queue_declare st name passive durable exclusive auto_delete args inc =
      (.error .closedResource, [])
    ∧ basic_publish st ex rk body hdr mandatory immediate mfs =
      (.error .closedResource, []) := by
  constructor <;> simp [queue_declare, basic_publish, h]

/-- Witness for `C7_closed_channel_guard` on a concrete closed channel. -/
theorem C7_closed_channel_guard_witness :
    chClosed.isOpen = false
    ∧ queue_declare chClosed "q" false false false false none
        (.frame ⟨.queueDeclareOk "q" 0 0⟩) = (.error .closedResource, [])
    ∧ basic_publish chClosed "" "rk" [104] none true false 4096 =
      (.error .closedResource, []) :=
  ⟨rfl,
    (C7_closed_channel_guard chClosed "q" "" "rk" false false false false none
      (.frame ⟨.queueDeclareOk "q" 0 0⟩) [104] none true false 4096 rfl).1,
    (C7_closed_channel_guard chClosed "q" "" "rk" false false false false none
      (.frame ⟨.queueDeclareOk "q" 0 0⟩) [104] none true false 4096 rfl).2⟩

/-- Claim C8 (publishes are NOT blocked by server flow stop): on an open
channel whose `_server_flow_stopped` flag is set, `basic_publish` succeeds and
emits its method, header and body frames immediately — `channel.py` never
consults the flag, so its result and trace are identical whatever the flag's
value (last conjunct), contradicting the claim that the publish blocks and
sends nothing until the flag clears.  (The claim's other half holds trivially
for the same reason: synchronous methods are equally unaffected.) -/
theorem C8_publish_ignores_server_flow :
    (basic_publish ⟨1, true, none, true, false⟩ "" "rk" [104, 105] none true false
      4096).1 = .ok ()
    ∧ (basic_publish ⟨1, true, none, true, false⟩ "" "rk" [104, 105] none true false
        4096).2 =
      [.lockAcquire, .sendMethod 1 (.basicPublish 1 "" "rk" true false),
       .sendHeader 1 2 blankBasicHeader, .sendBody 1 [104, 105], .lockRelease]
    ∧ (∀ (st : ChannelState) (ex rk : String) (body : List Nat)
        (hdr : Option BasicHeader) (m i : Bool) (mfs : Nat),
        basic_publish { st with serverFlowStopped := true } ex rk body hdr m i mfs =
          basic_publish { st with serverFlowStopped := false } ex rk body hdr m i mfs)
    ∧ (∀ (st : ChannelState) (name : String) (p d e a : Bool)
        (args : Option FieldTable) (inc : Inbound),
        queue_declare { st with serverFlowStopped := true } name p d e a args inc =
          queue_declare { st with serverFlowStopped := false } name p d e a args inc) := by
  refine ⟨by decide, by decide, fun st ex rk body hdr m i mfs => ?_,
    fun st name p d e a args inc => ?_⟩ <;>
    simp [basic_publish, queue_declare, send_and_receive_frame, receive_frame,
      receive_frame_blocked]

/-- Projecting a prefix of an interleaving yields a prefix of the full
projection. -/
theorem proj_take_front (b : Bool) (s : List (Bool × Event)) (n : Nat) :
    proj b (s.take n) <+: proj b s := by
  have h : s.take n <+: s := List.take_prefix n s
  exact (h.filter fun e => e.1 = b).map Prod.snd

/-- The prefixes of a four-element list. -/
theorem pre4_cases {α : Type} {a b c d : α} {u : List α}
    (h : u <+: [a, b, c, d]) :
    u = [] ∨ u = [a] ∨ u = [a, b] ∨ u = [a, b, c] ∨ u = [a, b, c, d] := by
  obtain ⟨t, ht⟩ := h
  rcases u with _ | ⟨x1, _ | ⟨x2, _ | ⟨x3, _ | ⟨x4, rest⟩⟩⟩⟩ <;>
    simp_all [List.cons_eq_cons]

/-- Inside a `[acquire, send, recv, release]` trace, an operation that has
sent but not yet received is exactly one that holds the lock. -/
theorem outstanding_holds {cid : Nat} {p : MethodPayload} {f : MethodFrame}
    {u : List Event}
    (hu : u <+: [Event.lockAcquire, Event.sendMethod cid p, Event.recv f,
      Event.lockRelease])
    (hs : Event.sendMethod cid p ∈ u) (hr : Event.recv f ∉ u) :
    Event.lockAcquire ∈ u ∧ Event.lockRelease ∉ u := by
  rcases pre4_cases hu with h | h | h | h | h <;> subst h <;> simp_all

/-- Claim C9: a synchronous request/reply pair on an in-flight channel holds
the channel lock from before the request is sent until after the matching
reply is received (`_send_and_receive_frame`'s trace is exactly
`[acquire, send, recv, release]`), so under the lock's mutual exclusion any
tagged interleaving of two such operations on the same channel has at most
one outstanding synchronous request at every instant. -/
theorem C9_lock_serializes_requests (st : ChannelState)
    (p₁ p₂ : MethodPayload) (f₁ f₂ : MethodFrame)
    (exp₁ exp₂ : Option PayloadVariant) (s : List (Bool × Event))
    (hopen : st.isOpen = true)
    (h₁ : proj true s = (send_and_receive_frame st p₁ exp₁ (.frame f₁)).2)
    (h₂ : proj false s = (send_and_receive_frame st p₂ exp₂ (.frame f₂)).2)
    (hmx : MutEx s) :
    (send_and_receive_frame st p₁ exp₁ (.frame f₁)).2 =
      [.lockAcquire, .sendMethod st.channelId p₁, .recv f₁, .lockRelease]
    ∧ ∀ n ≤ s.length,
        ¬(outstandingReq st.channelId p₁ f₁ true (s.take n)
          ∧ outstandingReq st.channelId p₂ f₂ false (s.take n)) := by
  have htr : ∀ (p : MethodPayload) (f : MethodFrame) (e : Option PayloadVariant),
      (send_and_receive_frame st p e (.frame f)).2 =
        [.lockAcquire, .sendMethod st.channelId p, .recv f, .lockRelease] := by
    intro p f e
    simp [send_and_receive_frame, receive_frame, receive_frame_blocked, hopen]
  refine ⟨htr p₁ f₁ exp₁, ?_⟩
  intro n hn hcontra
  obtain ⟨⟨hs1, hr1⟩, hs2, hr2⟩ := hcontra
  have hu₁ := proj_take_front true s n
  have hu₂ := proj_take_front false s n
  rw [h₁, htr p₁ f₁ exp₁] at hu₁
  rw [h₂, htr p₂ f₂ exp₂] at hu₂
  exact hmx n hn ⟨outstanding_holds hu₁ hs1 hr1, outstanding_holds hu₂ hs2 hr2⟩

/-- A concrete serial interleaving of two synchronous requests on channel 1:
operation `true` completes a `Queue.Declare`, then operation `false` completes
a `Channel.Close`. -/
def serialTwoOps : List (Bool × Event) :=
  [(true, .lockAcquire),
   (true, .sendMethod 1 (.queueDeclare 0 "q" false false false false false [])),
   (true, .recv ⟨.queueDeclareOk "q" 0 0⟩),
   (true, .lockRelease),
   (false, .lockAcquire),
   (false, .sendMethod 1 (.channelClose ⟨0, "", 0, 0⟩)),
   (false, .recv ⟨.channelCloseOk⟩),
   (false, .lockRelease)]

/-- Witness for `C9_lock_serializes_requests` on `serialTwoOps`, instant 2
(operation `true` mid-request). -/
theorem C9_lock_serializes_requests_witness :
    ¬(outstandingReq 1 (.queueDeclare 0 "q" false false false false false [])
        ⟨.queueDeclareOk "q" 0 0⟩ true (serialTwoOps.take 2)
      ∧ outstandingReq 1 (.channelClose ⟨0, "", 0, 0⟩) ⟨.channelCloseOk⟩ false
        (serialTwoOps.take 2)) :=
  (C9_lock_serializes_requests chOpen
    (.queueDeclare 0 "q" false false false false false [])
    (.channelClose ⟨0, "", 0, 0⟩) ⟨.queueDeclareOk "q" 0 0⟩ ⟨.channelCloseOk⟩
    (some .queueDeclareOk) none serialTwoOps rfl (by decide) (by decide)
    (by decide)).2 2 (by decide)

/-- Claim C10: `_send_and_receive_frame` returns whatever reply frame arrives,
unchanged and independent of its `type` parameter (first two conjuncts, for
any frame, so in particular for one whose payload is not a
`QueueDeclareOkPayload`); consequently `queue_declare`'s read of the reply's
`name` attribute is only safe under the unchecked precondition that the peer
replied `Queue.DeclareOk` — when the reply is, e.g., a `Channel.FlowOk`, the
attribute access fails (last conjunct). -/
theorem C10_reply_type_unchecked (st : ChannelState) (p : MethodPayload)
    (exp₁ exp₂ : Option PayloadVariant) (f : MethodFrame)
    (hopen : st.isOpen = true) :
    (send_and_receive_frame st p exp₁ (.frame f)).1 = .ok f
    ∧ send_and_receive_frame st p exp₁ (.frame f) =
        send_and_receive_frame st p exp₂ (.frame f)
    ∧ (queue_declare chOpen "q" false false false false none
        (.frame ⟨.flowOk true⟩)).1 = .error .attributeError := by
  refine ⟨?_, ?_, by decide⟩ <;>
    simp [send_and_receive_frame, receive_frame, receive_frame_blocked, hopen]

/-- Witness for `C10_reply_type_unchecked`: a `Channel.FlowOk` reply to a
`Queue.Declare` request is returned unchanged. -/
theorem C10_reply_type_unchecked_witness :
    (send_and_receive_frame chOpen
        (.queueDeclare 0 "q" false false false false false [])
        (some .queueDeclareOk) (.frame ⟨.flowOk true⟩)).1 = .ok ⟨.flowOk true⟩
    ∧ send_and_receive_frame chOpen
        (.queueDeclare 0 "q" false false false false false [])
        (some .queueDeclareOk) (.frame ⟨.flowOk true⟩) =
      send_and_receive_frame chOpen
        (.queueDeclare 0 "q" false false false false false [])
        none (.frame ⟨.flowOk true⟩)
    ∧ (queue_declare chOpen "q" false false false false none
        (.frame ⟨.flowOk true⟩)).1 = .error .attributeError :=
  C10_reply_type_unchecked chOpen
    (.queueDeclare 0 "q" false false false false false [])
    (some .queueDeclareOk) none ⟨.flowOk true⟩ rfl

end Serena
